import Mathlib

/-
Verification of the conversation/participant resolution and live-sync
view-model logic of the messaging feature.

The embedding mirrors the following source files:
  - the conversation-list screen (fetchConversations, getOtherParticipant,
    renderItem, the subscription effect and its cleanup),
  - the direct-message screen (its own getOtherParticipant),
  - the new-message screen (startConversation),
together with the participants-table uniqueness constraint from the
messaging migration (UNIQUE(conversation_id, user_id)).

Scripting-language values relevant to the logic (string or null or
undefined) are embedded as JsValue; truthiness and the strict
disequality test used by the source are made explicit.
-/

/-- A value as the screens see it: a string, null, or undefined.
Only these three shapes reach the resolution logic. -/
inductive JsValue where
  | undefined : JsValue
  | null : JsValue
  | str : String → JsValue
deriving DecidableEq, Repr

/-- Truthiness of such a value: a non-empty string is truthy,
null, undefined and the empty string are falsy. -/
def JsValue.truthy : JsValue → Bool
  | .str s => s != ""
  | _ => false

/-- The source idiom a or-else b: keep a when truthy, otherwise b. -/
def jsOr (a b : JsValue) : JsValue :=
  if a.truthy then a else b

/-- Profile rows as selected by the messaging screens. -/
structure Profile where
  id : JsValue
  username : JsValue
  display_name : JsValue
  avatar_url : JsValue
deriving DecidableEq, Repr

/-- A participant row joined with its profile; the join can fail
upstream, so the profile payload may be absent. -/
structure Participant where
  profiles : Option Profile
deriving DecidableEq, Repr

/-- A conversation row as fetched by the conversation-list screen. -/
structure Conversation where
  id : String
  last_message : JsValue
  last_message_at : JsValue
  updated_at : JsValue
  participants : List Participant
deriving DecidableEq, Repr

namespace MessagesList

/-- Participant check used when filtering: the profile payload is present
and its identifier is truthy. -/
def hasValidProfile (p : Participant) : Bool :=
  match p.profiles with
  | some prof => prof.id.truthy
  | none => false

/-- The validProfiles intermediate of getOtherParticipant: keep the
participants with a present profile and a truthy identifier, then
project to the profiles. -/
def validProfiles (conversation : Conversation) : List Profile :=
  (conversation.participants.filter hasValidProfile).filterMap (·.profiles)

/-- The otherProfiles intermediate of getOtherParticipant: the valid
profiles whose identifier strictly differs from the viewer identifier. -/
def otherProfiles (conversation : Conversation) (currentUserId : JsValue) : List Profile :=
  (validProfiles conversation).filter fun profile => decide (profile.id ≠ currentUserId)

/-- The conversation-list resolver: null on an empty (or absent)
participant list, null when no valid profile remains after filtering,
otherwise the first non-viewer valid profile, and when every valid
profile belongs to the viewer, the first valid profile itself. -/
def getOtherParticipant (conversation : Conversation) (currentUserId : JsValue) : Option Profile :=
  if conversation.participants.isEmpty then
    none
  else
    let valid := validProfiles conversation
    if valid.isEmpty then
      none
    else
      let others := otherProfiles conversation currentUserId
      if others.isEmpty then valid.head? else others.head?

/-- The filter applied by fetchConversations before storing the fetched
conversations: the participant list is non-empty and some participant
has a present profile with a truthy identifier. -/
def filterValidConversations (data : List Conversation) : List Conversation :=
  data.filter fun conv =>
    !conv.participants.isEmpty && conv.participants.any hasValidProfile

/-- The avatar payload of a participant: its profile avatar when the
profile is present, undefined otherwise (the optional-chaining result). -/
def participantAvatar (p : Participant) : JsValue :=
  match p.profiles with
  | some prof => prof.avatar_url
  | none => .undefined

/-- The find inside the avatar logic of renderItem: the first participant
whose profile payload is present and whose identifier strictly differs
from the viewer identifier (no truthiness check on the identifier here). -/
def findNonViewer (conversation : Conversation) (currentUserId : JsValue) : Option Participant :=
  conversation.participants.find? fun p =>
    match p.profiles with
    | some prof => decide (prof.id ≠ currentUserId)
    | none => false

/-- The avatarUrl computation of renderItem: the avatar of the first
non-viewer participant found, or-else the avatar of the profile selected
by the resolver. -/
def avatarSource (conversation : Conversation) (currentUserId : JsValue)
    (otherParticipant : Profile) : JsValue :=
  jsOr (match findNonViewer conversation currentUserId with
        | some p => participantAvatar p
        | none => .undefined)
    otherParticipant.avatar_url

/-- The avatar rule as the specification words it, named for comparison
with avatarSource: the avatar of the first participant in input order
whose profile identifier differs from the viewer identifier; when no
such participant exists, the avatar of the profile selected by the
resolver. -/
def specAvatarRule (conversation : Conversation) (currentUserId : JsValue)
    (resolved : Profile) : JsValue :=
  match findNonViewer conversation currentUserId with
  | some p => participantAvatar p
  | none => resolved.avatar_url

/-- The default avatar image used by the screen when no avatar resolves. -/
def defaultAvatarUri : JsValue :=
  .str "https://images.unsplash.com/photo-1633332755192-727a05c4013d?w=100&h=100&fit=crop"

/-- The data content of one rendered conversation row. The relative-time
label is produced by a display-only date helper and carries no resolution
logic, so the row keeps the fields the resolution logic determines. -/
structure RenderedRow where
  avatarUri : JsValue
  displayName : JsValue
  lastMessage : JsValue
deriving DecidableEq, Repr

/-- renderItem of the conversation-list screen: nothing is rendered when
the resolver signals no valid participant; otherwise a row with the
resolved avatar, display name (display name or-else username or-else a
placeholder) and last message (or-else a placeholder). -/
def renderItem (conversation : Conversation) (currentUserId : JsValue) : Option RenderedRow :=
  match getOtherParticipant conversation currentUserId with
  | none => none
  | some otherParticipant =>
      some { avatarUri := jsOr (avatarSource conversation currentUserId otherParticipant)
               defaultAvatarUri,
             displayName := jsOr otherParticipant.display_name
               (jsOr otherParticipant.username (.str "Unknown user")),
             lastMessage := jsOr conversation.last_message (.str "No messages yet") }

/-- The local state of one conversation-list screen instance, together
with the effect-local liveness flag (mounted), the subscription status of
the two channels, and the number of fetchConversations calls in flight. -/
structure ScreenState where
  conversations : List Conversation
  loading : Bool
  refreshing : Bool
  error : Option String
  currentUserId : JsValue
  mounted : Bool
  subscribed : Bool
  pendingFetches : Nat
deriving DecidableEq, Repr

/-- Starting one fetchConversations call: one more fetch is in flight. -/
def startFetch (s : ScreenState) : ScreenState :=
  { s with pendingFetches := s.pendingFetches + 1 }

/-- The effect cleanup: the liveness flag is cleared and both channels
are unsubscribed. In-flight fetches are not cancelled. -/
def cleanup (s : ScreenState) : ScreenState :=
  { s with mounted := false, subscribed := false }

/-- Delivery of one change event from either channel: the event reaches
the callback only while subscribed, and the callback starts a refetch
only when the liveness flag is still set. -/
def deliverChangeEvent (s : ScreenState) : ScreenState :=
  if s.subscribed then
    (if s.mounted then startFetch s else s)
  else
    s

/-- How one in-flight fetchConversations call can settle: the viewer
lookup found no user (with the message set by that lookup), the query
succeeded for the given viewer, the query returned an error object, or
an exception was thrown and caught. -/
inductive FetchOutcome where
  | noUser : String → FetchOutcome
  | ok : String → List Conversation → FetchOutcome
  | queryError : String → String → FetchOutcome
  | exception : String → FetchOutcome
deriving DecidableEq, Repr

/-- Resolution of one in-flight fetchConversations call, applied to the
state whenever the call settles: the tail of the function runs without
consulting the liveness flag. On success the stored list is replaced by
the filtered data and the error is cleared; on failure the stored list
is left unchanged and an error message is set; in every case the
loading and refreshing flags are cleared and no new fetch is started. -/
def resolveFetch (s : ScreenState) (r : FetchOutcome) : ScreenState :=
  let s0 := { s with pendingFetches := s.pendingFetches - 1 }
  match r with
  | .noUser message =>
      { s0 with error := some message, loading := false, refreshing := false }
  | .ok userId data =>
      { s0 with currentUserId := .str userId,
                conversations := filterValidConversations data,
                error := none, loading := false, refreshing := false }
  | .queryError userId message =>
      { s0 with currentUserId := .str userId,
                error := some ("Failed to load conversations: " ++ message),
                loading := false, refreshing := false }
  | .exception _ =>
      { s0 with error := some "Failed to load conversations. Please try again.",
                loading := false, refreshing := false }

/-- The manual retry action of the error view: show the loader, clear
the error, and run fetchConversations once more. -/
def retryPress (s : ScreenState) : ScreenState :=
  { s with loading := true, error := none,
           pendingFetches := s.pendingFetches + 1 }

/-- One postgres-changes subscription as configured by the screen. -/
structure ChannelSpec where
  event : String
  schema : String
  table : String
  rowPredicate : Option String
deriving DecidableEq, Repr

/-- The two subscriptions held while the conversation-list screen is
active: every event type, whole table, no row predicate. -/
def conversationListChannels : List ChannelSpec :=
  [ { event := "*", schema := "public", table := "conversations", rowPredicate := none },
    { event := "*", schema := "public", table := "messages", rowPredicate := none } ]

/-- The console lines produced by debugParticipants. -/
def debugParticipantsLogs (conversation : Conversation) (s : ScreenState) : List String :=
  ("Debugging conversation " ++ conversation.id) ::
  ("Current user ID: " ++ (match s.currentUserId with | .str u => u | _ => "null")) ::
  ("Number of participants: " ++ toString conversation.participants.length) ::
  conversation.participants.map fun p =>
    match p.profiles with
    | some _ => "Participant"
    | none => "No profile data"

/-- The resolver as the screen actually runs it: it reads the screen
state (for the viewer identifier), can emit console lines, and returns
the selected profile together with the state after the call and the
emitted lines. Mirrors the branch structure of the source. -/
def getOtherParticipantRun (conversation : Conversation) (s : ScreenState) :
    Option Profile × ScreenState × List String :=
  if conversation.participants.isEmpty then
    (none, s, ["No participants in conversation " ++ conversation.id])
  else
    let debugLines := debugParticipantsLogs conversation s
    let valid := validProfiles conversation
    if valid.isEmpty then
      (none, s, debugLines ++ ["No valid profiles in conversation " ++ conversation.id])
    else
      let others := otherProfiles conversation s.currentUserId
      if others.isEmpty then
        (valid.head?, s, debugLines ++ ["Only found current user in conversation " ++ conversation.id])
      else
        (others.head?, s, debugLines ++ ["Found other participants for conversation " ++ conversation.id])

end MessagesList

namespace DirectMessage

/-- A participant row of the direct-message screen; its declared type
carries the joined profile directly. -/
structure Participant where
  profiles : Profile
deriving DecidableEq, Repr

/-- The header resolver of the direct-message screen: the first profile
whose identifier strictly differs from the viewer identifier, with no
validity filtering and no self-conversation fallback. -/
def getOtherParticipant (participants : List Participant) (currentUserId : JsValue) :
    Option Profile :=
  (participants.map (·.profiles)).find? fun profile => decide (profile.id ≠ currentUserId)

end DirectMessage

namespace NewMessage

/-- The messaging rows startConversation reads and writes: conversation
identifiers and (conversation identifier, user identifier) participant
rows. The migration constrains the participant pairs to be unique. -/
structure Db where
  conversations : List String
  participants : List (String × String)
deriving DecidableEq, Repr

/-- What startConversation does, beyond its writes: sets an error
message, navigates to an existing conversation, or creates and
navigates to a new one. -/
inductive StartOutcome where
  | authError : String → StartOutcome
  | navigateExisting : String → StartOutcome
  | createdAndNavigate : String → StartOutcome
deriving DecidableEq, Repr

/-- The existing-conversation search of startConversation: walk the
participant rows of the viewer in order and keep the first conversation
for which the single-row lookup of (conversation, other user) succeeds,
that is, yields exactly one row. -/
def viewerConversationIds (db : Db) (userId : String) : List String :=
  (db.participants.filter fun r => decide (r.2 = userId)).map (·.1)

def findExistingConversation (db : Db) (userId otherUserId : String) : Option String :=
  (viewerConversationIds db userId).find? fun conversationId =>
    (db.participants.filter fun r =>
        decide (r.1 = conversationId ∧ r.2 = otherUserId)).length == 1

/-- startConversation: with no authenticated viewer, set an error and
write nothing; with a shared conversation found, navigate to it and
write nothing; otherwise insert one conversation row under a fresh
identifier and exactly two participant rows, then navigate to it. -/
def startConversation (db : Db) (auth : Option String) (otherUserId : String)
    (freshId : String) : StartOutcome × Db :=
  match auth with
  | none => (.authError "You must be logged in to start a conversation", db)
  | some userId =>
    match findExistingConversation db userId otherUserId with
    | some conversationId => (.navigateExisting conversationId, db)
    | none =>
        (.createdAndNavigate freshId,
         { conversations := db.conversations ++ [freshId],
           participants := db.participants ++ [(freshId, userId), (freshId, otherUserId)] })

end NewMessage

example : MessagesList.getOtherParticipant
    ⟨"c1", .null, .null, .null,
      [⟨some ⟨.str "u1", .str "a", .str "A", .null⟩⟩,
       ⟨some ⟨.str "u2", .str "b", .str "B", .null⟩⟩]⟩
    (.str "u1")
    = some ⟨.str "u2", .str "b", .str "B", .null⟩ := by decide

example : MessagesList.getOtherParticipant
    ⟨"c2", .null, .null, .null, [⟨some ⟨.str "u1", .str "a", .str "A", .null⟩⟩]⟩
    (.str "u1")
    = some ⟨.str "u1", .str "a", .str "A", .null⟩ := by decide

example : MessagesList.getOtherParticipant
    ⟨"c3", .null, .null, .null, [⟨none⟩, ⟨some ⟨.undefined, .str "a", .str "A", .null⟩⟩]⟩
    (.str "u1")
    = none := by decide

/- Helper lemmas shared by the theorems below. -/

theorem validProfiles_of_participants_nil (conversation : Conversation)
    (h : conversation.participants = []) : MessagesList.validProfiles conversation = [] := by
  simp [MessagesList.validProfiles, h]

theorem otherProfiles_nil_of_validProfiles_nil (conversation : Conversation) (u : JsValue)
    (h : MessagesList.validProfiles conversation = []) :
    MessagesList.otherProfiles conversation u = [] := by
  simp [MessagesList.otherProfiles, h]

theorem validProfiles_eq_nil_iff (conversation : Conversation) :
    MessagesList.validProfiles conversation = [] ↔
      ∀ p ∈ conversation.participants, MessagesList.hasValidProfile p = false := by
  constructor
  · intro h p hp
    by_contra hc
    have hpv : MessagesList.hasValidProfile p = true := by
      cases hh : MessagesList.hasValidProfile p
      · exact absurd hh hc
      · rfl
    have hmemf : p ∈ conversation.participants.filter MessagesList.hasValidProfile :=
      List.mem_filter.mpr ⟨hp, hpv⟩
    cases hprof : p.profiles with
    | none => simp [MessagesList.hasValidProfile, hprof] at hpv
    | some prof =>
        have hmem : prof ∈ MessagesList.validProfiles conversation := by
          rw [MessagesList.validProfiles]
          exact List.mem_filterMap.mpr ⟨p, hmemf, by rw [hprof]⟩
        rw [h] at hmem
        exact absurd hmem (List.not_mem_nil prof)
  · intro h
    rw [MessagesList.validProfiles]
    have hfil : conversation.participants.filter MessagesList.hasValidProfile = [] :=
      List.filter_eq_nil_iff.mpr (fun a ha => by simp [h a ha])
    rw [hfil]
    rfl

theorem getOtherParticipant_none_iff (conversation : Conversation) (u : JsValue) :
    MessagesList.getOtherParticipant conversation u = none ↔
      MessagesList.validProfiles conversation = [] := by
  constructor
  · intro h
    by_contra hval
    have hpart : conversation.participants ≠ [] := fun hp =>
      hval (validProfiles_of_participants_nil _ hp)
    rcases List.exists_cons_of_ne_nil hval with ⟨a, t, hat⟩
    by_cases ho : MessagesList.otherProfiles conversation u = []
    · simp [MessagesList.getOtherParticipant, List.isEmpty_iff, hpart, hval, ho, hat] at h
    · rcases List.exists_cons_of_ne_nil ho with ⟨b, t2, hbt⟩
      simp [MessagesList.getOtherParticipant, List.isEmpty_iff, hpart, hval, ho, hbt] at h
  · intro h
    by_cases hpart : conversation.participants = [] <;>
      simp [MessagesList.getOtherParticipant, List.isEmpty_iff, hpart, h]

/-- Claim C1: whenever the filtered participant list of a conversation
still contains at least one valid profile whose identifier differs from
the viewer identifier, the conversation-list resolver returns the first
such non-viewer profile in input order; in particular, when exactly one
such profile exists it returns that profile. -/
theorem getOtherParticipant_first_nonviewer (conversation : Conversation) (currentUserId : JsValue)
    (h : MessagesList.otherProfiles conversation currentUserId ≠ []) :
    MessagesList.getOtherParticipant conversation currentUserId =
      (MessagesList.otherProfiles conversation currentUserId).head? ∧
    ∀ prof, MessagesList.otherProfiles conversation currentUserId = [prof] →
      MessagesList.getOtherParticipant conversation currentUserId = some prof := by
  have hval : MessagesList.validProfiles conversation ≠ [] := fun hv =>
    h (otherProfiles_nil_of_validProfiles_nil _ _ hv)
  have hpart : conversation.participants ≠ [] := fun hp =>
    hval (validProfiles_of_participants_nil _ hp)
  have hmain : MessagesList.getOtherParticipant conversation currentUserId =
      (MessagesList.otherProfiles conversation currentUserId).head? := by
    simp [MessagesList.getOtherParticipant, List.isEmpty_iff, hpart, hval, h]
  exact ⟨hmain, fun prof hp => by rw [hmain, hp]; rfl⟩

/-- Witness for C1 at a concrete two-person conversation. -/
theorem getOtherParticipant_first_nonviewer_witness :
    MessagesList.getOtherParticipant
        ⟨"w1", .null, .null, .null,
          [⟨some ⟨.str "u1", .str "a", .str "A", .null⟩⟩,
           ⟨some ⟨.str "u2", .str "b", .str "B", .null⟩⟩]⟩ (.str "u1") =
      (MessagesList.otherProfiles
        ⟨"w1", .null, .null, .null,
          [⟨some ⟨.str "u1", .str "a", .str "A", .null⟩⟩,
           ⟨some ⟨.str "u2", .str "b", .str "B", .null⟩⟩]⟩ (.str "u1")).head? :=
  (getOtherParticipant_first_nonviewer _ _ (by decide)).1

/-- Claim C2: the resolver returns null exactly when filtering leaves no
valid profile; renderItem then renders nothing for that conversation, and
fetchConversations keeps a fetched conversation exactly when it still has
a valid participant. -/
theorem getOtherParticipant_unresolvable_iff (conversation : Conversation)
    (currentUserId : JsValue) (l : List Conversation) :
    (MessagesList.getOtherParticipant conversation currentUserId = none ↔
      MessagesList.validProfiles conversation = []) ∧
    (MessagesList.renderItem conversation currentUserId = none ↔
      MessagesList.getOtherParticipant conversation currentUserId = none) ∧
    (conversation ∈ MessagesList.filterValidConversations l ↔
      conversation ∈ l ∧ MessagesList.validProfiles conversation ≠ []) := by
  refine ⟨getOtherParticipant_none_iff _ _, ?_, ?_⟩
  · cases h : MessagesList.getOtherParticipant conversation currentUserId <;>
      simp [MessagesList.renderItem, h]
  · rw [MessagesList.filterValidConversations, List.mem_filter]
    constructor
    · rintro ⟨hmem, hcond⟩
      refine ⟨hmem, ?_⟩
      rw [Bool.and_eq_true] at hcond
      rcases hcond with ⟨-, hany⟩
      rcases List.any_eq_true.mp hany with ⟨p, hp, hpv⟩
      intro hnil
      have hfalse := (validProfiles_eq_nil_iff conversation).mp hnil p hp
      rw [hfalse] at hpv
      exact Bool.noConfusion hpv
    · rintro ⟨hmem, hval⟩
      refine ⟨hmem, ?_⟩
      rw [Bool.and_eq_true]
      constructor
      · have hpart : conversation.participants ≠ [] := fun hp =>
          hval (validProfiles_of_participants_nil _ hp)
        simp [List.isEmpty_iff, hpart]
      · by_contra hany
        apply hval
        apply (validProfiles_eq_nil_iff conversation).mpr
        intro p hp
        cases hh : MessagesList.hasValidProfile p
        · rfl
        · exact absurd (List.any_eq_true.mpr ⟨p, hp, hh⟩) hany

/-- Claim C3: when the conversation still has valid profiles but every
one of them carries the viewer identifier (a self-conversation), the
resolver returns the first valid profile instead of signaling
unresolvable. -/
theorem getOtherParticipant_self_conversation (conversation : Conversation)
    (currentUserId : JsValue)
    (hvalid : MessagesList.validProfiles conversation ≠ [])
    (hall : ∀ prof ∈ MessagesList.validProfiles conversation, prof.id = currentUserId) :
    MessagesList.getOtherParticipant conversation currentUserId =
      (MessagesList.validProfiles conversation).head? ∧
    MessagesList.getOtherParticipant conversation currentUserId ≠ none := by
  have hpart : conversation.participants ≠ [] := fun hp =>
    hvalid (validProfiles_of_participants_nil _ hp)
  have hothers : MessagesList.otherProfiles conversation currentUserId = [] := by
    rw [MessagesList.otherProfiles, List.filter_eq_nil_iff]
    intro prof hmem
    simp [hall prof hmem]
  have hmain : MessagesList.getOtherParticipant conversation currentUserId =
      (MessagesList.validProfiles conversation).head? := by
    simp [MessagesList.getOtherParticipant, List.isEmpty_iff, hpart, hvalid, hothers]
  refine ⟨hmain, ?_⟩
  rw [hmain]
  rcases List.exists_cons_of_ne_nil hvalid with ⟨a, t, hat⟩
  rw [hat]
  simp

/-- Witness for C3 at a concrete self-conversation. -/
theorem getOtherParticipant_self_conversation_witness :
    MessagesList.getOtherParticipant
        ⟨"w3", .null, .null, .null, [⟨some ⟨.str "u1", .str "a", .str "A", .null⟩⟩]⟩
        (.str "u1") =
      (MessagesList.validProfiles
        ⟨"w3", .null, .null, .null, [⟨some ⟨.str "u1", .str "a", .str "A", .null⟩⟩]⟩).head? :=
  (getOtherParticipant_self_conversation _ _ (by decide) (by decide)).1

/-- Claim C9: the resolver, run the way the screen runs it (reading the
screen state, emitting console lines), returns exactly the value of the
pure resolver at the stored viewer identifier, leaves the screen state
untouched, and a second invocation on the resulting state selects the
same profile. -/
theorem getOtherParticipantRun_pure (conversation : Conversation)
    (s : MessagesList.ScreenState) :
    (MessagesList.getOtherParticipantRun conversation s).1 =
      MessagesList.getOtherParticipant conversation s.currentUserId ∧
    (MessagesList.getOtherParticipantRun conversation s).2.1 = s ∧
    (MessagesList.getOtherParticipantRun conversation
        ((MessagesList.getOtherParticipantRun conversation s).2.1)).1 =
      (MessagesList.getOtherParticipantRun conversation s).1 := by
  have hboth : (MessagesList.getOtherParticipantRun conversation s).1 =
      MessagesList.getOtherParticipant conversation s.currentUserId ∧
      (MessagesList.getOtherParticipantRun conversation s).2.1 = s := by
    by_cases hp : conversation.participants.isEmpty <;>
      by_cases hv : (MessagesList.validProfiles conversation).isEmpty <;>
      by_cases ho : (MessagesList.otherProfiles conversation s.currentUserId).isEmpty <;>
      simp [MessagesList.getOtherParticipantRun, MessagesList.getOtherParticipant, hp, hv, ho]
  exact ⟨hboth.1, hboth.2, by rw [hboth.2]⟩

/-- Claim C4, counterexample: at a deactivated screen (liveness flag
cleared, channels unsubscribed by cleanup) with one fetch still in
flight, the fetch resolving afterwards does change the stored
conversation list: fetchConversations applies its result without
consulting the liveness flag. -/
theorem lateFetch_updates_state_after_cleanup :
    (MessagesList.cleanup ⟨[], false, false, none, .null, true, true, 1⟩).mounted = false ∧
    (MessagesList.cleanup ⟨[], false, false, none, .null, true, true, 1⟩).subscribed = false ∧
    (MessagesList.resolveFetch
        (MessagesList.cleanup ⟨[], false, false, none, .null, true, true, 1⟩)
        (.ok "u1" [⟨"c1", .null, .null, .null,
          [⟨some ⟨.str "u2", .null, .null, .null⟩⟩]⟩])).conversations ≠
      (MessagesList.cleanup ⟨[], false, false, none, .null, true, true, 1⟩).conversations := by
  refine ⟨rfl, rfl, ?_⟩
  decide

/-- Claim C4 (amended): after the effect cleanup, change events trigger
no further refetch and change nothing, because delivery stops with the
unsubscribed channels and the callback consults the liveness flag; but a
refetch already in flight still applies its result when it resolves: on
success the stored list becomes the filtered fetched data. The liveness
flag guards starting a refetch, not applying its result. -/
theorem cleanup_blocks_new_refetch_not_late_results (s : MessagesList.ScreenState)
    (userId : String) (data : List Conversation) (r : MessagesList.FetchOutcome) :
    MessagesList.deliverChangeEvent (MessagesList.cleanup s) = MessagesList.cleanup s ∧
    (MessagesList.resolveFetch (MessagesList.cleanup s) (.ok userId data)).conversations =
      MessagesList.filterValidConversations data ∧
    (MessagesList.resolveFetch (MessagesList.cleanup s) r).pendingFetches =
      (MessagesList.cleanup s).pendingFetches - 1 := by
  refine ⟨?_, rfl, ?_⟩
  · simp [MessagesList.deliverChangeEvent, MessagesList.cleanup]
  · cases r <;> rfl

/-- Claim C5, counterexample: with a first participant whose profile has
no identifier and a missing avatar, followed by a valid non-viewer
participant with an avatar, the computed avatar is the avatar of the
second participant, while the stated rule yields the missing avatar of
the first participant: the code also falls back past a falsy avatar. -/
theorem avatar_claim_counterexample :
    MessagesList.getOtherParticipant
        ⟨"c5", .null, .null, .null,
          [⟨some ⟨.undefined, .undefined, .undefined, .null⟩⟩,
           ⟨some ⟨.str "u2", .str "b", .str "B", .str "https://example.com/u2.png"⟩⟩]⟩
        (.str "u1") =
      some ⟨.str "u2", .str "b", .str "B", .str "https://example.com/u2.png"⟩ ∧
    MessagesList.avatarSource
        ⟨"c5", .null, .null, .null,
          [⟨some ⟨.undefined, .undefined, .undefined, .null⟩⟩,
           ⟨some ⟨.str "u2", .str "b", .str "B", .str "https://example.com/u2.png"⟩⟩]⟩
        (.str "u1") ⟨.str "u2", .str "b", .str "B", .str "https://example.com/u2.png"⟩ =
      .str "https://example.com/u2.png" ∧
    MessagesList.specAvatarRule
        ⟨"c5", .null, .null, .null,
          [⟨some ⟨.undefined, .undefined, .undefined, .null⟩⟩,
           ⟨some ⟨.str "u2", .str "b", .str "B", .str "https://example.com/u2.png"⟩⟩]⟩
        (.str "u1") ⟨.str "u2", .str "b", .str "B", .str "https://example.com/u2.png"⟩ =
      .null ∧
    MessagesList.avatarSource
        ⟨"c5", .null, .null, .null,
          [⟨some ⟨.undefined, .undefined, .undefined, .null⟩⟩,
           ⟨some ⟨.str "u2", .str "b", .str "B", .str "https://example.com/u2.png"⟩⟩]⟩
        (.str "u1") ⟨.str "u2", .str "b", .str "B", .str "https://example.com/u2.png"⟩ ≠
      MessagesList.specAvatarRule
        ⟨"c5", .null, .null, .null,
          [⟨some ⟨.undefined, .undefined, .undefined, .null⟩⟩,
           ⟨some ⟨.str "u2", .str "b", .str "B", .str "https://example.com/u2.png"⟩⟩]⟩
        (.str "u1") ⟨.str "u2", .str "b", .str "B", .str "https://example.com/u2.png"⟩ := by
  refine ⟨by decide, by decide, by decide, by decide⟩

/-- Claim C5 (amended): the displayed avatar is the avatar of the first
participant in input order with a present profile whose identifier
strictly differs from the viewer identifier, when that avatar is truthy;
when that avatar is missing or empty, or no such participant exists, the
avatar of the profile selected by the resolver is used instead. -/
theorem avatar_resolution_amended (conversation : Conversation) (currentUserId : JsValue)
    (otherParticipant : Profile) :
    (∀ p, MessagesList.findNonViewer conversation currentUserId = some p →
        ((MessagesList.participantAvatar p).truthy = true →
          MessagesList.avatarSource conversation currentUserId otherParticipant =
            MessagesList.participantAvatar p) ∧
        ((MessagesList.participantAvatar p).truthy = false →
          MessagesList.avatarSource conversation currentUserId otherParticipant =
            otherParticipant.avatar_url)) ∧
    (MessagesList.findNonViewer conversation currentUserId = none →
      MessagesList.avatarSource conversation currentUserId otherParticipant =
        otherParticipant.avatar_url) := by
  constructor
  · intro p hp
    constructor <;> intro ht <;> simp [MessagesList.avatarSource, hp, jsOr, ht]
  · intro hp
    simp [MessagesList.avatarSource, hp, jsOr, JsValue.truthy]

/-- Witness for the amended C5 at a concrete self-conversation, where no
non-viewer participant exists and the resolved avatar is used. -/
theorem avatar_resolution_amended_witness :
    MessagesList.avatarSource
        ⟨"w5", .null, .null, .null, [⟨some ⟨.str "u1", .null, .null, .str "mine.png"⟩⟩]⟩
        (.str "u1") ⟨.str "u1", .null, .null, .str "mine.png"⟩ =
      (⟨.str "u1", .null, .null, .str "mine.png"⟩ : Profile).avatar_url :=
  (avatar_resolution_amended _ _ _).2 (by decide)

/-- Claim C6: the active screen holds exactly two whole-table
subscriptions (conversations and messages, every event type, no row
predicate), each delivered change event starts exactly one full refetch
and patches nothing locally, and two successive events start two
refetches with no coalescing. -/
theorem liveSync_two_channels_refetch_per_event (s : MessagesList.ScreenState)
    (hsub : s.subscribed = true) (hm : s.mounted = true) :
    MessagesList.conversationListChannels.length = 2 ∧
    (∀ c ∈ MessagesList.conversationListChannels, c.event = "*" ∧ c.rowPredicate = none) ∧
    MessagesList.conversationListChannels.map (·.table) = ["conversations", "messages"] ∧
    (MessagesList.deliverChangeEvent s).pendingFetches = s.pendingFetches + 1 ∧
    (MessagesList.deliverChangeEvent (MessagesList.deliverChangeEvent s)).pendingFetches =
      s.pendingFetches + 2 ∧
    (MessagesList.deliverChangeEvent s).conversations = s.conversations := by
  refine ⟨rfl, by decide, rfl, ?_, ?_, ?_⟩ <;>
    simp [MessagesList.deliverChangeEvent, MessagesList.startFetch, hsub, hm]

/-- Witness for C6 at a concrete subscribed, live state. -/
theorem liveSync_two_channels_refetch_per_event_witness :
    (MessagesList.deliverChangeEvent ⟨[], false, false, none, .str "u1", true, true, 0⟩).pendingFetches =
      (⟨[], false, false, none, .str "u1", true, true, 0⟩ : MessagesList.ScreenState).pendingFetches + 1 :=
  (liveSync_two_channels_refetch_per_event _ rfl rfl).2.2.2.1

/-- Claim C8: a failed conversations fetch (query error object or thrown
exception) leaves the stored list unchanged, records a screen-local
error message, starts no automatic retry, and the manual retry action
clears the error, shows the loader and runs exactly one new fetch. The
resolution function is total: every outcome yields a next state, so no
failure escapes the call. -/
theorem fetch_failure_is_screen_local (s : MessagesList.ScreenState) (userId message : String) :
    (MessagesList.resolveFetch s (.queryError userId message)).conversations = s.conversations ∧
    (MessagesList.resolveFetch s (.queryError userId message)).error =
      some ("Failed to load conversations: " ++ message) ∧
    (MessagesList.resolveFetch s (.queryError userId message)).pendingFetches =
      s.pendingFetches - 1 ∧
    (MessagesList.resolveFetch s (.exception message)).conversations = s.conversations ∧
    (MessagesList.resolveFetch s (.exception message)).error =
      some "Failed to load conversations. Please try again." ∧
    (MessagesList.resolveFetch s (.exception message)).pendingFetches = s.pendingFetches - 1 ∧
    (MessagesList.retryPress s).error = none ∧
    (MessagesList.retryPress s).loading = true ∧
    (MessagesList.retryPress s).pendingFetches = s.pendingFetches + 1 ∧
    (MessagesList.retryPress s).conversations = s.conversations :=
  ⟨rfl, rfl, rfl, rfl, rfl, rfl, rfl, rfl, rfl, rfl⟩

theorem mem_viewerConversationIds (db : NewMessage.Db) (u c : String) :
    c ∈ NewMessage.viewerConversationIds db u ↔ (c, u) ∈ db.participants := by
  rw [NewMessage.viewerConversationIds]
  constructor
  · intro h
    rcases List.mem_map.mp h with ⟨r, hr, hrc⟩
    rcases List.mem_filter.mp hr with ⟨hmem, hru⟩
    have hru2 : r.2 = u := of_decide_eq_true hru
    have hr' : r = (c, u) := Prod.ext_iff.mpr ⟨hrc, hru2⟩
    rw [← hr']
    exact hmem
  · intro h
    exact List.mem_map.mpr ⟨(c, u), List.mem_filter.mpr ⟨h, by simp⟩, rfl⟩

theorem filter_eq_pair_of_nodup {α : Type} [DecidableEq α] (l : List α) (a : α)
    (hnd : l.Nodup) :
    l.filter (fun r => decide (r = a)) = if a ∈ l then [a] else [] := by
  induction l with
  | nil => simp
  | cons b t ih =>
      rcases List.nodup_cons.mp hnd with ⟨hbt, hndt⟩
      by_cases hba : b = a
      · subst hba
        simp [List.filter_cons, ih hndt, hbt]
      · have hmem : (a = b ∨ a ∈ t) ↔ a ∈ t := by
          constructor
          · rintro (h | h)
            · exact absurd h.symm hba
            · exact h
          · exact Or.inr
        simp [List.filter_cons, hba, ih hndt, List.mem_cons, hmem]

theorem single_lookup_iff (db : NewMessage.Db) (c o : String)
    (hnd : db.participants.Nodup) :
    ((db.participants.filter fun r =>
        decide (r.1 = c ∧ r.2 = o)).length == 1) = true ↔
      (c, o) ∈ db.participants := by
  have hcongr : (db.participants.filter fun r => decide (r.1 = c ∧ r.2 = o)) =
      db.participants.filter (fun r => decide (r = (c, o))) := by
    apply List.filter_congr
    intro r _
    cases r with
    | mk x y => simp [Prod.ext_iff]
  rw [hcongr, filter_eq_pair_of_nodup _ _ hnd]
  by_cases hmem : (c, o) ∈ db.participants <;> simp [hmem]

theorem findExisting_none_iff (db : NewMessage.Db) (u o : String)
    (hnd : db.participants.Nodup) :
    NewMessage.findExistingConversation db u o = none ↔
      ¬ ∃ c, (c, u) ∈ db.participants ∧ (c, o) ∈ db.participants := by
  rw [NewMessage.findExistingConversation, List.find?_eq_none]
  constructor
  · rintro h ⟨c, hcu, hco⟩
    have hc := h c ((mem_viewerConversationIds db u c).mpr hcu)
    exact hc ((single_lookup_iff db c o hnd).mpr hco)
  · intro h c hc hpred
    exact h ⟨c, (mem_viewerConversationIds db u c).mp hc,
      (single_lookup_iff db c o hnd).mp hpred⟩

/-- Claim C7: without an authenticated viewer, startConversation only
sets an error message and writes nothing; with a viewer, it inserts one
new conversation row and exactly the two participant rows for the viewer
and the other user precisely when no existing conversation has both as
participants; when a shared conversation exists it navigates to one and
writes nothing. The participant rows are assumed pairwise distinct, the
invariant the messaging migration enforces with a uniqueness constraint. -/
theorem startConversation_spec (db : NewMessage.Db) (userId otherUserId freshId : String)
    (hnd : db.participants.Nodup) :
    NewMessage.startConversation db none otherUserId freshId =
      (.authError "You must be logged in to start a conversation", db) ∧
    ((¬ ∃ c, (c, userId) ∈ db.participants ∧ (c, otherUserId) ∈ db.participants) →
      NewMessage.startConversation db (some userId) otherUserId freshId =
        (.createdAndNavigate freshId,
         ⟨db.conversations ++ [freshId],
          db.participants ++ [(freshId, userId), (freshId, otherUserId)]⟩)) ∧
    ((∃ c, (c, userId) ∈ db.participants ∧ (c, otherUserId) ∈ db.participants) →
      ∃ c, (c, userId) ∈ db.participants ∧ (c, otherUserId) ∈ db.participants ∧
        NewMessage.startConversation db (some userId) otherUserId freshId =
          (.navigateExisting c, db)) := by
  refine ⟨rfl, ?_, ?_⟩
  · intro hnone
    have hfind : NewMessage.findExistingConversation db userId otherUserId = none :=
      (findExisting_none_iff db userId otherUserId hnd).mpr hnone
    simp [NewMessage.startConversation, hfind]
  · intro hex
    cases hfind : NewMessage.findExistingConversation db userId otherUserId with
    | none => exact absurd hex ((findExisting_none_iff db userId otherUserId hnd).mp hfind)
    | some c =>
        have hcmem := List.mem_of_find?_eq_some hfind
        have hpred := List.find?_some hfind
        refine ⟨c, (mem_viewerConversationIds db userId c).mp hcmem,
          (single_lookup_iff db c otherUserId hnd).mp hpred, ?_⟩
        simp [NewMessage.startConversation, hfind]

/-- Witness for C7 at a concrete store where the viewer and the other
user already share a conversation. -/
theorem startConversation_spec_witness :
    ∃ c, (c, "u1") ∈ (⟨["c1"], [("c1", "u1"), ("c1", "u2")]⟩ : NewMessage.Db).participants ∧
      (c, "u2") ∈ (⟨["c1"], [("c1", "u1"), ("c1", "u2")]⟩ : NewMessage.Db).participants ∧
      NewMessage.startConversation ⟨["c1"], [("c1", "u1"), ("c1", "u2")]⟩ (some "u1") "u2" "c9" =
        (.navigateExisting c, ⟨["c1"], [("c1", "u1"), ("c1", "u2")]⟩) :=
  (startConversation_spec ⟨["c1"], [("c1", "u1"), ("c1", "u2")]⟩ "u1" "u2" "c9"
    (by decide)).2.2 ⟨"c1", by decide, by decide⟩

theorem find?_eq_head?_filter {α : Type} (p : α → Bool) (l : List α) :
    l.find? p = (l.filter p).head? := by
  induction l with
  | nil => rfl
  | cons a t ih =>
      cases h : p a
      · rw [List.find?_cons_of_neg _ (by simp [h]), List.filter_cons_of_neg (by simp [h]), ih]
      · rw [List.find?_cons_of_pos _ h, List.filter_cons_of_pos h]
        rfl

/-- Claim C10: the header resolver of the direct-message screen returns
the first participant profile whose identifier strictly differs from the
viewer identifier, returns nothing when every profile identifier equals
the viewer identifier, performs no validity filtering (a profile with a
missing identifier is returned as soon as it differs from the viewer),
and has no self-conversation fallback, unlike the conversation-list
resolver, which returns the self profile on the same input. -/
theorem directMessage_header_resolver (participants : List DirectMessage.Participant)
    (currentUserId : JsValue) :
    DirectMessage.getOtherParticipant participants currentUserId =
      ((participants.map (·.profiles)).filter fun profile =>
        decide (profile.id ≠ currentUserId)).head? ∧
    ((∀ p ∈ participants, p.profiles.id = currentUserId) →
      DirectMessage.getOtherParticipant participants currentUserId = none) ∧
    DirectMessage.getOtherParticipant [⟨⟨.undefined, .null, .null, .null⟩⟩] (.str "u1") =
      some ⟨.undefined, .null, .null, .null⟩ ∧
    DirectMessage.getOtherParticipant [⟨⟨.str "u1", .null, .null, .null⟩⟩] (.str "u1") = none ∧
    MessagesList.getOtherParticipant
        ⟨"cs", .null, .null, .null, [⟨some ⟨.str "u1", .null, .null, .null⟩⟩]⟩ (.str "u1") =
      some ⟨.str "u1", .null, .null, .null⟩ := by
  refine ⟨find?_eq_head?_filter _ _, ?_, by decide, by decide, by decide⟩
  intro hall
  rw [DirectMessage.getOtherParticipant, List.find?_eq_none]
  intro prof hmem
  rcases List.mem_map.mp hmem with ⟨p, hp, hpp⟩
  subst hpp
  simp [hall p hp]

/-- Witness for C10 at a concrete one-participant viewer-only list. -/
theorem directMessage_header_resolver_witness :
    DirectMessage.getOtherParticipant [⟨⟨.str "u9", .null, .null, .null⟩⟩] (.str "u9") = none :=
  (directMessage_header_resolver _ _).2.1 (by decide)
